import Mathlib

/-!
Shallow embedding of the tool-calling agent loop of
`src/ai-service/agentic_framework.py` (class `AgenticFramework`).

Modelling conventions:
* Python/JSON values are embedded as the inductive `Value`; numbers are
  rationals (the only non-integer numbers appearing in the source are the
  literal constants 37.5, 50.0, 12.5 and 75.0, all exactly representable).
* Exceptions raised by Python code are embedded as `Except PyErr`; the
  message strings carried by `PyErr` are representative, since the claims
  never depend on exception message text.
* The external reasoning capability (`self.client.chat.completions.create`)
  is embedded as an `Oracle`: a function from the current message transcript
  to the assistant response.  Quantifying theorems over all oracles models
  its non-determinism.  A failing reasoning call is not modelled (none of
  the claims concerns it).
* `json.loads(tool_call.function.arguments)` is abstracted: a `ToolCall`
  carries the already-parsed argument mapping.  `json.dumps` is embedded as
  `Value.dumps` (its exact formatting, e.g. of numbers, is representative;
  no claim compares serialized text produced by two different values).
-/

/-- Embedded Python/JSON value. -/
inductive Value where
  | none
  | bool (b : Bool)
  | num (q : ℚ)
  | str (s : String)
  | list (items : List Value)
  | dict (entries : List (String × Value))

/-- Embedded Python exception (only the kinds the embedded code can raise). -/
inductive PyErr where
  | typeError (msg : String)
  | keyError (msg : String)
  | attributeError (msg : String)
deriving DecidableEq

/-- A parsed keyword-argument mapping, the result of `json.loads` on a tool
call's `function.arguments` string. -/
abbrev ArgDict := List (String × Value)

mutual

/-- Embedding of `json.dumps` on embedded values (representative rendering). -/
def Value.dumps : Value → String
  | Value.none => "null"
  | Value.bool true => "true"
  | Value.bool false => "false"
  | Value.num q => toString q
  | Value.str s => "\x22" ++ s ++ "\x22"
  | Value.list items => "[" ++ dumpsItems items ++ "]"
  | Value.dict entries => "\x7b" ++ dumpsEntries entries ++ "\x7d"

/-- Serialization of a list of values, comma separated. -/
def dumpsItems : List Value → String
  | [] => ""
  | [v] => Value.dumps v
  | v :: rest => Value.dumps v ++ ", " ++ dumpsItems rest

/-- Serialization of the entries of an object, comma separated. -/
def dumpsEntries : List (String × Value) → String
  | [] => ""
  | [(k, v)] => "\x22" ++ k ++ "\x22: " ++ Value.dumps v
  | (k, v) :: rest => "\x22" ++ k ++ "\x22: " ++ Value.dumps v ++ ", " ++ dumpsEntries rest

end

/-- Python truthiness of an embedded value (`if v:`). -/
def Value.truthy : Value → Bool
  | Value.none => false
  | Value.bool b => b
  | Value.num q => decide (q ≠ 0)
  | Value.str s => decide (s ≠ "")
  | Value.list items => !items.isEmpty
  | Value.dict entries => !entries.isEmpty

/-- Field access on an embedded dict value (`d[k]` where present, else none). -/
def Value.get? (v : Value) (k : String) : Option Value :=
  match v with
  | Value.dict entries => (entries.find? (fun kv => kv.1 == k)).map (fun kv => kv.2)
  | _ => Option.none

/-- Embedding of `risk_map[v]` for `risk_map = {"low": 2, "medium": 5, "high": 8}`:
a lookup that raises `KeyError` for a missing key and `TypeError` for an
unhashable key, exactly as the Python subscript does. -/
def risk_map_lookup : Value → Except PyErr ℤ
  | Value.str "low" => .ok 2
  | Value.str "medium" => .ok 5
  | Value.str "high" => .ok 8
  | Value.str s => .error (.keyError s)
  | Value.list _ => .error (.typeError "unhashable type")
  | Value.dict _ => .error (.typeError "unhashable type")
  | _ => .error (.keyError "key not in risk_map")

/-- Embedding of the tool `calculate_risk_score` (lines 127-147 of the source).
The body can raise (`risk_map[...]` on a value outside the enumeration), so the
result is `Except`.  The two lookups happen in source order: `data_sensitivity`
first, then (after the PII bump) `user_impact`. -/
def calculate_risk_score (data_sensitivity has_pii user_impact : Value) :
    Except PyErr Value :=
  match risk_map_lookup data_sensitivity with
  | .error e => .error e
  | .ok s0 =>
    let base_score := if has_pii.truthy then s0 + 2 else s0
    match risk_map_lookup user_impact with
    | .error e => .error e
    | .ok s1 =>
      let risk_score : ℤ := min 10 (base_score + s1)
      let risk_level :=
        if risk_score < 4 then "low" else if risk_score < 7 then "medium" else "high"
      .ok (Value.dict
        [("risk_score", Value.num (risk_score : ℚ)),
         ("risk_level", Value.str risk_level),
         ("factors", Value.dict
           [("data_sensitivity", data_sensitivity),
            ("has_pii", has_pii),
            ("user_impact", user_impact)])])

/-- The `data_privacy` policy literal of `query_governance_policy`. -/
def dataPrivacyPolicy : Value :=
  Value.dict
    [("summary", Value.str "All AI projects must comply with GDPR, CCPA, and data protection regulations"),
     ("key_requirements", Value.list
       [Value.str "Data minimization",
        Value.str "Encryption at rest and in transit",
        Value.str "Role-based access control",
        Value.str "Privacy impact assessment for PII"]),
     ("approval_required", Value.bool true)]

/-- The `bias_fairness` policy literal of `query_governance_policy`. -/
def biasFairnessPolicy : Value :=
  Value.dict
    [("summary", Value.str "AI systems must be tested for bias and ensure fair outcomes"),
     ("key_requirements", Value.list
       [Value.str "Diverse training data",
        Value.str "Bias testing across demographics",
        Value.str "Fairness metrics monitoring",
        Value.str "Regular bias audits"]),
     ("approval_required", Value.bool false)]

/-- The `compliance` policy literal of `query_governance_policy`. -/
def compliancePolicy : Value :=
  Value.dict
    [("summary", Value.str "Ensure compliance with industry regulations and standards"),
     ("key_requirements", Value.list
       [Value.str "Regulatory mapping",
        Value.str "Compliance documentation",
        Value.str "Audit trail maintenance",
        Value.str "Regular compliance reviews"]),
     ("approval_required", Value.bool true)]

/-- The `security` policy literal of `query_governance_policy`. -/
def securityPolicy : Value :=
  Value.dict
    [("summary", Value.str "Implement robust security measures for AI systems"),
     ("key_requirements", Value.list
       [Value.str "Secure API endpoints",
        Value.str "Input validation",
        Value.str "Output sanitization",
        Value.str "Security testing"]),
     ("approval_required", Value.bool false)]

/-- Embedding of the tool `query_governance_policy` (lines 149-194 of the
source): `policies.get(policy_area, default)` never raises for hashable keys
and returns the default error dict for any key other than the four policy
areas; an unhashable key raises `TypeError`. -/
def query_governance_policy (policy_area : Value) : Except PyErr Value :=
  match policy_area with
  | Value.str "data_privacy" => .ok dataPrivacyPolicy
  | Value.str "bias_fairness" => .ok biasFairnessPolicy
  | Value.str "compliance" => .ok compliancePolicy
  | Value.str "security" => .ok securityPolicy
  | Value.list _ => .error (.typeError "unhashable type")
  | Value.dict _ => .error (.typeError "unhashable type")
  | _ => .ok (Value.dict [("error", Value.str "Policy area not found")])

/-- Python `needle in hay` on strings: substring containment. -/
def strContains (hay needle : String) : Bool :=
  decide (needle.data <:+: hay.data)

/-- Embedding of the `requirements` list that the body of
`check_compliance_requirements` (lines 196-231 of the source) accumulates, in
exactly the source's append order.  The final `if geographic_regions:` is the
Python truthiness test: `None` and the empty list are both skipped. -/
def complianceRequirements (industry : String) (data_types : List String)
    (geographic_regions : Option (List String)) : List String :=
  let requirements : List String := []
  let requirements :=
    if ["healthcare", "health"].contains industry.toLower then
      requirements ++ ["HIPAA compliance required"]
    else requirements
  let requirements :=
    if ["finance", "banking", "financial"].contains industry.toLower then
      requirements ++ ["SOX compliance", "PCI DSS if handling payments"]
    else requirements
  let requirements :=
    if data_types.any (fun dt => strContains dt.toLower "pii" || strContains dt.toLower "personal") then
      requirements ++ ["GDPR compliance (if EU data)", "CCPA compliance (if California residents)"]
    else requirements
  let requirements :=
    if data_types.any (fun dt => strContains dt.toLower "health" || strContains dt.toLower "medical") then
      requirements ++ ["HIPAA compliance"]
    else requirements
  match geographic_regions with
  | Option.none => requirements
  | Option.some regions =>
    if regions.isEmpty then requirements
    else
      let requirements :=
        if regions.contains "EU" || regions.contains "Europe" then
          requirements ++ ["GDPR compliance mandatory"]
        else requirements
      if regions.contains "California" || regions.contains "US" then
        requirements ++ ["CCPA compliance recommended"]
      else requirements

/-- Embedding of the tool `check_compliance_requirements` at its annotated
types (`industry: str, data_types: List[str], geographic_regions:
Optional[List[str]] = None`); at these types the body cannot raise.  Python's
`list(set(requirements))` has unspecified order; it is embedded as `dedup`
(the claims only depend on `len(requirements)` of the raw list). -/
def check_compliance_requirements (industry : String) (data_types : List String)
    (geographic_regions : Option (List String)) : Value :=
  let requirements := complianceRequirements industry data_types geographic_regions
  Value.dict
    [("industry", Value.str industry),
     ("compliance_requirements", Value.list (requirements.dedup.map Value.str)),
     ("high_risk", Value.bool (decide (2 < requirements.length))),
     ("requires_legal_review", Value.bool (decide (0 < requirements.length)))]

/-- Embedding of the tool `get_project_metrics` (lines 233-256 of the source).
The body only compares `metric_type` against three string literals; the
`filter_by_risk` parameter is accepted but never read. -/
def get_project_metrics (metric_type : Value) (filter_by_risk : Value) : Value :=
  match metric_type with
  | Value.str "count" =>
    Value.dict
      [("total_projects", Value.num 24),
       ("active_projects", Value.num 18),
       ("completed_projects", Value.num 6),
       ("by_risk", Value.dict
         [("low", Value.num 9), ("medium", Value.num 12), ("high", Value.num 3)])]
  | Value.str "risk_distribution" =>
    Value.dict
      [("low_risk", Value.dict [("count", Value.num 9), ("percentage", Value.num (75 / 2))]),
       ("medium_risk", Value.dict [("count", Value.num 12), ("percentage", Value.num 50)]),
       ("high_risk", Value.dict [("count", Value.num 3), ("percentage", Value.num (25 / 2))])]
  | Value.str "compliance_status" =>
    Value.dict
      [("fully_compliant", Value.num 18),
       ("partially_compliant", Value.num 4),
       ("non_compliant", Value.num 2),
       ("compliance_rate", Value.num 75)]
  | _ => Value.dict [("error", Value.str "Unknown metric type")]

/-- Conversion of a string element list; raises if an element is not a string
(Python would raise `AttributeError` at the first `.lower()` on it). -/
def asStrings : List Value → Except PyErr (List String)
  | [] => .ok []
  | Value.str s :: rest =>
    match asStrings rest with
    | .ok t => .ok (s :: t)
    | .error e => .error e
  | _ :: _ => .error (.attributeError "element has no attribute lower")

/-- Shape extraction for an argument annotated `str`.  Arguments whose shape
deviates from the declared schema are modelled as raising; the concrete
exception Python raises for such a shape depends on where the value is first
used, and no claim exercises those paths. -/
def asString : Value → Except PyErr String
  | Value.str s => .ok s
  | _ => .error (.attributeError "value has no attribute lower")

/-- Shape extraction for an argument annotated `List[str]` (same caveat as
`asString`). -/
def asStringList : Value → Except PyErr (List String)
  | Value.list items => asStrings items
  | _ => .error (.typeError "value is not iterable")

/-- Shape extraction for an argument annotated `Optional[List[str]]` (same
caveat as `asString`). -/
def asOptStringList : Value → Except PyErr (Option (List String))
  | Value.none => .ok Option.none
  | Value.list items =>
    match asStrings items with
    | .ok t => .ok (Option.some t)
    | .error e => .error e
  | _ => .error (.typeError "value is not iterable")

/-- Lookup of one keyword argument in a parsed argument mapping. -/
def kwargsGet (args : ArgDict) (k : String) : Option Value :=
  (args.find? (fun kv => kv.1 == k)).map (fun kv => kv.2)

/-- Python `f(**args)` rejects keys that are not parameters of `f` with a
`TypeError`; this checks the keys against the parameter list. -/
def keysSubset (args : ArgDict) (allowed : List String) : Bool :=
  args.all (fun kv => allowed.contains kv.1)

/-- Embedding of `self.calculate_risk_score(**tool_args)`: keyword
destructuring into the three required parameters (missing required argument or
unexpected keyword raises `TypeError`, as in Python), then the handler body. -/
def call_calculate_risk_score (args : ArgDict) : Except PyErr Value :=
  if keysSubset args ["data_sensitivity", "has_pii", "user_impact"] then
    match kwargsGet args "data_sensitivity", kwargsGet args "has_pii",
          kwargsGet args "user_impact" with
    | Option.some ds, Option.some pii, Option.some ui => calculate_risk_score ds pii ui
    | _, _, _ => .error (.typeError "missing a required argument")
  else .error (.typeError "got an unexpected keyword argument")

/-- Embedding of `self.query_governance_policy(**tool_args)`. -/
def call_query_governance_policy (args : ArgDict) : Except PyErr Value :=
  if keysSubset args ["policy_area"] then
    match kwargsGet args "policy_area" with
    | Option.some pa => query_governance_policy pa
    | Option.none => .error (.typeError "missing a required argument")
  else .error (.typeError "got an unexpected keyword argument")

/-- Embedding of `self.check_compliance_requirements(**tool_args)`:
destructuring (with `geographic_regions` defaulting to `None`), then shape
extraction to the annotated parameter types, then the handler body. -/
def call_check_compliance_requirements (args : ArgDict) : Except PyErr Value :=
  if keysSubset args ["industry", "data_types", "geographic_regions"] then
    match kwargsGet args "industry", kwargsGet args "data_types" with
    | Option.some industryV, Option.some dataTypesV =>
      (match asString industryV, asStringList dataTypesV,
             asOptStringList ((kwargsGet args "geographic_regions").getD Value.none) with
       | .ok ind, .ok dts, .ok regions => .ok (check_compliance_requirements ind dts regions)
       | .error e, _, _ => .error e
       | _, .error e, _ => .error e
       | _, _, .error e => .error e)
    | _, _ => .error (.typeError "missing a required argument")
  else .error (.typeError "got an unexpected keyword argument")

/-- Embedding of `self.get_project_metrics(**tool_args)` with the default
`filter_by_risk="all"`. -/
def call_get_project_metrics (args : ArgDict) : Except PyErr Value :=
  if keysSubset args ["metric_type", "filter_by_risk"] then
    match kwargsGet args "metric_type" with
    | Option.some mt =>
      .ok (get_project_metrics mt ((kwargsGet args "filter_by_risk").getD (Value.str "all")))
    | Option.none => .error (.typeError "missing a required argument")
  else .error (.typeError "got an unexpected keyword argument")

/-- The keys of `tool_map` in `execute_tool` (lines 258-270 of the source). -/
def registeredNames : List String :=
  ["calculate_risk_score", "query_governance_policy",
   "check_compliance_requirements", "get_project_metrics"]

/-- Embedding of `AgenticFramework.execute_tool` (lines 258-270 of the
source): dispatch by name through `tool_map`; an unregistered name returns the
error dict (it does not raise), while a registered name calls its handler with
keyword destructuring, which can raise. -/
def execute_tool (tool_name : String) (tool_args : ArgDict) : Except PyErr Value :=
  if tool_name = "calculate_risk_score" then call_calculate_risk_score tool_args
  else if tool_name = "query_governance_policy" then call_query_governance_policy tool_args
  else if tool_name = "check_compliance_requirements" then call_check_compliance_requirements tool_args
  else if tool_name = "get_project_metrics" then call_get_project_metrics tool_args
  else .ok (Value.dict [("error", Value.str ("Tool " ++ tool_name ++ " not found"))])

/-- One requested tool call from a reasoning response (`tool_call.id`,
`tool_call.function.name`, and the parsed `tool_call.function.arguments`). -/
structure ToolCall where
  id : String
  function_name : String
  arguments : ArgDict

/-- The reasoning response (`response.choices[0].message`): optional text
content plus the requested tool calls (Python's `None` is the empty list; both
are falsy in `if assistant_message.tool_calls:`). -/
structure AssistantMsg where
  content : Option String
  tool_calls : List ToolCall

/-- One turn of the transcript `messages`.  A tool turn's `content` is
`json.dumps(tool_result)` in the source; the structured value is kept here
(serialization is `Value.dumps`, and no claim compares serialized text). -/
inductive Msg where
  | system (content : String)
  | user (content : String)
  | assistant (message : AssistantMsg)
  | tool (tool_call_id : String) (name : String) (result : Value)

/-- One entry of `steps` as built in `execute_task` (lines 343-350). -/
structure StepRecord where
  step_number : Nat
  action : String
  tool_used : String
  tool_input : ArgDict
  observation : Value
  reasoning : String

/-- The dict returned by `execute_task` (lines 355-368). -/
structure TaskResult where
  final_answer : Option String
  steps : List StepRecord
  total_steps : Nat
  success : Bool

/-- The external reasoning capability: a function from the submitted
transcript to the assistant message of the response.  Universally quantifying
over oracles models its non-determinism. -/
abbrev Oracle := List Msg → AssistantMsg

/-- The fixed exhaustion sentinel text (line 364 of the source). -/
def exhaustedSentinel : String :=
  "Task exceeded maximum steps. Please refine the task or increase max_steps."

/-- The fixed system instruction text (lines 293-296 of the source). -/
def systemInstruction : String :=
  "You are an AI assistant for enterprise AI governance.\nYou have access to tools to help answer questions and complete tasks.\nUse the tools when needed to provide accurate, data-driven responses.\nThink step-by-step and explain your reasoning."

/-- Python truthiness of the `context` parameter in `if context:`: an absent
context and a present-but-empty mapping are both falsy. -/
def contextTruthy : Option ArgDict → Bool
  | Option.some (_ :: _) => true
  | _ => false

/-- The content of the seeded system turn: the fixed instruction text, plus
`"\n\nContext: " + json.dumps(context)` when `context` is truthy (lines
289-305 of the source). -/
def systemContent (context : Option ArgDict) : String :=
  if contextTruthy context then
    systemInstruction ++ "\n\nContext: " ++ Value.dumps (Value.dict (context.getD []))
  else systemInstruction

/-- The seeded transcript: system turn then user turn (lines 290-305). -/
def initialMessages (task_description : String) (context : Option ArgDict) : List Msg :=
  [Msg.system (systemContent context), Msg.user task_description]

/-- Embedding of the inner `for tool_call in assistant_message.tool_calls:`
loop (lines 325-350 of the source): invoke each requested call in emission
order, appending one tool turn and one step record per call.  An exception
raised by `execute_tool` propagates (there is no handler in the source). -/
def execRound (round_number : Nat) :
    List ToolCall → List Msg → List StepRecord →
    Except PyErr (List Msg × List StepRecord)
  | [], messages, steps => .ok (messages, steps)
  | tc :: rest, messages, steps =>
    match execute_tool tc.function_name tc.arguments with
    | .error e => .error e
    | .ok v =>
      execRound round_number rest
        (messages ++ [Msg.tool tc.id tc.function_name v])
        (steps ++ [{ step_number := round_number,
                     action := "Called tool: " ++ tc.function_name,
                     tool_used := tc.function_name,
                     tool_input := tc.arguments,
                     observation := v,
                     reasoning := "Using " ++ tc.function_name ++ " to gather information" }])

/-- Embedding of the `for step_num in range(max_steps):` loop of
`execute_task` (lines 307-368): `fuel` is the number of remaining rounds,
`round` the number of completed rounds.  The second component of the result
instruments the embedding with the number of calls made to the reasoning
capability; the source returns only the first component. -/
def runSteps (oracle : Oracle) :
    Nat → Nat → List Msg → List StepRecord → Except PyErr TaskResult × Nat
  | 0, _, _, steps =>
    (.ok { final_answer := Option.some exhaustedSentinel, steps := steps,
           total_steps := steps.length, success := false }, 0)
  | fuel + 1, round, messages, steps =>
    let am := oracle messages
    if am.tool_calls.isEmpty then
      (.ok { final_answer := am.content, steps := steps,
             total_steps := steps.length, success := true }, 1)
    else
      match execRound (round + 1) am.tool_calls (messages ++ [Msg.assistant am]) steps with
      | .error e => (.error e, 1)
      | .ok (messages2, steps2) =>
        let rest := runSteps oracle fuel (round + 1) messages2 steps2
        (rest.1, rest.2 + 1)

/-- Embedding of `AgenticFramework.execute_task` (lines 272-368 of the
source): seed the transcript, then run at most `max_steps` reasoning rounds.
A raised exception is the `.error` case. -/
def execute_task (oracle : Oracle) (task_description : String)
    (context : Option ArgDict) (max_steps : Nat) : Except PyErr TaskResult :=
  (runSteps oracle max_steps 0 (initialMessages task_description context) []).1

/-- Instrumentation: how many calls `execute_task` makes to the reasoning
capability. -/
def reasoningCalls (oracle : Oracle) (task_description : String)
    (context : Option ArgDict) (max_steps : Nat) : Nat :=
  (runSteps oracle max_steps 0 (initialMessages task_description context) []).2

/-- The payload a successful invocation of `tc` returns (`Value.none` when the
invocation raises; used only under a hypothesis that it does not). -/
def okValueOf (tc : ToolCall) : Value :=
  match execute_tool tc.function_name tc.arguments with
  | .ok v => v
  | .error _ => Value.none

/-- The tool turn appended for a successfully executed call `tc`. -/
def toolTurnOf (tc : ToolCall) : Msg :=
  Msg.tool tc.id tc.function_name (okValueOf tc)

/-- The step record appended for a successfully executed call `tc` in round
`n` (1-based). -/
def stepRecordOf (n : Nat) (tc : ToolCall) : StepRecord :=
  { step_number := n,
    action := "Called tool: " ++ tc.function_name,
    tool_used := tc.function_name,
    tool_input := tc.arguments,
    observation := okValueOf tc,
    reasoning := "Using " ++ tc.function_name ++ " to gather information" }

/-- Recognizer for the exhaustion outcome of `execute_task`: a returned (not
raised) result with `success=false`, the fixed sentinel text as final answer,
and `total_steps` consistent with the recorded steps. -/
def isExhaustedOutcome : Except PyErr TaskResult → Bool
  | .ok r =>
    (!r.success) && decide (r.final_answer = Option.some exhaustedSentinel)
      && decide (r.total_steps = r.steps.length)
  | .error _ => false

/-- An oracle that always answers directly with no tool calls and no text. -/
def oracleDone : Oracle := fun _ => { content := Option.none, tool_calls := [] }

/-- A request for `calculate_risk_score` with a `data_sensitivity` value
outside the declared enumeration: the handler body raises `KeyError` at
`risk_map["bogus"]`. -/
def badEnumCall : ToolCall :=
  { id := "call_1", function_name := "calculate_risk_score",
    arguments := [("data_sensitivity", Value.str "bogus"),
                  ("has_pii", Value.bool false),
                  ("user_impact", Value.str "low")] }

/-- A request for `calculate_risk_score` with no arguments at all: keyword
destructuring raises `TypeError` (missing required parameters). -/
def missingArgsCall : ToolCall :=
  { id := "call_2", function_name := "calculate_risk_score", arguments := [] }

/-- A well-formed request for `get_project_metrics`. -/
def metricsCall : ToolCall :=
  { id := "call_3", function_name := "get_project_metrics",
    arguments := [("metric_type", Value.str "count")] }

/-- A well-formed request for `calculate_risk_score`. -/
def riskCall : ToolCall :=
  { id := "call_4", function_name := "calculate_risk_score",
    arguments := [("data_sensitivity", Value.str "low"),
                  ("has_pii", Value.bool true),
                  ("user_impact", Value.str "high")] }

/-- An oracle that always requests the out-of-enumeration call. -/
def oracleBadEnum : Oracle := fun _ => { content := Option.none, tool_calls := [badEnumCall] }

/-- An oracle that always requests the missing-arguments call. -/
def oracleMissingArgs : Oracle := fun _ => { content := Option.none, tool_calls := [missingArgsCall] }

/-- An oracle that always requests one well-formed metrics call and never
produces final text. -/
def oracleMetrics : Oracle := fun _ => { content := Option.none, tool_calls := [metricsCall] }

/-- An oracle whose single round requests a raising call followed by a
well-formed call. -/
def oracleTwoCalls : Oracle := fun _ => { content := Option.none, tool_calls := [badEnumCall, metricsCall] }

/-- An oracle whose rounds request two well-formed calls. -/
def oracleTwoGood : Oracle := fun _ => { content := Option.none, tool_calls := [metricsCall, riskCall] }

/-- An oracle that requests the tool `name` with arguments `args` in the first
round (the seeded transcript has two turns) and answers "done" with no tool
calls in any later round. -/
def oracleUnknownTool (name : String) (args : ArgDict) : Oracle :=
  fun messages =>
    if messages.length ≤ 2 then
      { content := Option.none,
        tool_calls := [{ id := "call_1", function_name := name, arguments := args }] }
    else { content := Option.some "done", tool_calls := [] }

/-- The reasoning-call counter of the loop never exceeds the fuel. -/
theorem runSteps_count_le (oracle : Oracle) :
    ∀ (fuel round : Nat) (messages : List Msg) (steps : List StepRecord),
      (runSteps oracle fuel round messages steps).2 ≤ fuel := by
  intro fuel
  induction fuel with
  | zero => intro round messages steps; simp [runSteps]
  | succ n ih =>
    intro round messages steps
    simp only [runSteps]
    split
    · exact Nat.le_add_left 1 n
    · split
      · exact Nat.le_add_left 1 n
      · exact Nat.succ_le_succ (ih _ _ _)

/-- A round all of whose requested calls execute without raising appends, in
emission order, one tool turn and one step record per call. -/
theorem execRound_all_ok :
    ∀ (calls : List ToolCall) (round : Nat) (messages : List Msg) (steps : List StepRecord),
      (∀ tc ∈ calls, (execute_tool tc.function_name tc.arguments).isOk = true) →
      execRound round calls messages steps =
        .ok (messages ++ calls.map toolTurnOf, steps ++ calls.map (stepRecordOf round)) := by
  intro calls
  induction calls with
  | nil => intro round messages steps _; simp [execRound]
  | cons tc rest ih =>
    intro round messages steps h
    have htc := h tc (List.mem_cons_self tc rest)
    have hrest : ∀ tc2 ∈ rest, (execute_tool tc2.function_name tc2.arguments).isOk = true :=
      fun tc2 h2 => h tc2 (List.mem_cons_of_mem tc h2)
    cases hv : execute_tool tc.function_name tc.arguments with
    | error e => rw [hv] at htc; simp [Except.isOk, Except.toBool] at htc
    | ok v =>
      have hval : okValueOf tc = v := by simp [okValueOf, hv]
      simp only [execRound, hv, ih _ _ _ hrest, toolTurnOf, stepRecordOf, hval,
        List.map_cons, List.append_assoc, List.singleton_append]

/-- If every call before `tc` in a round succeeds and the invocation of `tc`
raises `e`, the whole round raises `e`. -/
theorem execRound_error_escape :
    ∀ (pre : List ToolCall) (tc : ToolCall) (post : List ToolCall) (round : Nat)
      (messages : List Msg) (steps : List StepRecord) (e : PyErr),
      (∀ tc2 ∈ pre, (execute_tool tc2.function_name tc2.arguments).isOk = true) →
      execute_tool tc.function_name tc.arguments = .error e →
      execRound round (pre ++ tc :: post) messages steps = .error e := by
  intro pre
  induction pre with
  | nil => intro tc post round messages steps e _ he; simp [execRound, he]
  | cons p rest ih =>
    intro tc post round messages steps e h he
    have hp := h p (List.mem_cons_self p rest)
    have hrest : ∀ tc2 ∈ rest, (execute_tool tc2.function_name tc2.arguments).isOk = true :=
      fun tc2 h2 => h tc2 (List.mem_cons_of_mem p h2)
    cases hv : execute_tool p.function_name p.arguments with
    | error e2 => rw [hv] at hp; simp [Except.isOk, Except.toBool] at hp
    | ok v => simp only [List.cons_append, execRound, hv]; exact ih tc post round _ _ e hrest he

/-- Checker for C8: the result is a returned (not raised) dict whose
`risk_score` is between 4 and 10 and whose `risk_level` is `medium` or
`high`. -/
def riskBoundsOk (result : Except PyErr Value) : Bool :=
  match result with
  | .ok (Value.dict (("risk_score", Value.num q) :: ("risk_level", Value.str level) :: _)) =>
    decide ((4 : ℚ) ≤ q) && decide (q ≤ 10) && (level == "medium" || level == "high")
  | _ => false

/-- C6: tool invocation is deterministic — `execute_tool` is embedded as a
pure function of the tool name and the argument mapping over static data (the
handlers read no other state), so two invocations with the same inputs yield
the same result. -/
theorem C6_execute_tool_deterministic (tool_name : String) (args1 args2 : ArgDict)
    (h : args1 = args2) :
    execute_tool tool_name args1 = execute_tool tool_name args2 := by
  rw [h]

/-- Witness for C6 at a concrete invocation. -/
theorem C6_execute_tool_deterministic_witness :
    execute_tool "get_project_metrics" [("metric_type", Value.str "count")] =
      execute_tool "get_project_metrics" [("metric_type", Value.str "count")] :=
  C6_execute_tool_deterministic "get_project_metrics" _ _ rfl

/-- C8: for every `data_sensitivity` and `user_impact` in the declared
enumeration and every boolean `has_pii`, `calculate_risk_score` returns (does
not raise) a result whose `risk_score` lies between 4 and 10 inclusive and
whose `risk_level` is `medium` or `high` — never `low` (the minimum attainable
base score is 2 + 0 + 2 = 4, which already classifies as `medium`). -/
theorem C8_risk_score_bounds (ds ui : String) (pii : Bool)
    (hds : ds ∈ ["low", "medium", "high"]) (hui : ui ∈ ["low", "medium", "high"]) :
    riskBoundsOk (calculate_risk_score (Value.str ds) (Value.bool pii) (Value.str ui)) = true := by
  simp only [List.mem_cons, List.not_mem_nil, or_false] at hds hui
  rcases hds with rfl | rfl | rfl <;> rcases hui with rfl | rfl | rfl <;>
    cases pii <;> decide

/-- Witness for C8 at the minimum-score input (low, no PII, low). -/
theorem C8_risk_score_bounds_witness :
    riskBoundsOk (calculate_risk_score (Value.str "low") (Value.bool false) (Value.str "low")) = true :=
  C8_risk_score_bounds "low" "low" false (by simp) (by simp)

/-- C9: the output of `get_project_metrics` is independent of its
`filter_by_risk` argument — the parameter is declared but never read, so any
two filter values produce the identical mapping. -/
theorem C9_metrics_filter_independent (metric_type f1 f2 : Value) :
    get_project_metrics metric_type f1 = get_project_metrics metric_type f2 := rfl

/-- C10: in the result of `check_compliance_requirements`,
`requires_legal_review` is true iff at least one requirement was collected,
`high_risk` is true iff more than two were collected, and `high_risk` implies
`requires_legal_review`. -/
theorem C10_compliance_flags (industry : String) (data_types : List String)
    (geographic_regions : Option (List String)) :
    ((check_compliance_requirements industry data_types geographic_regions).get?
        "requires_legal_review" = Option.some (Value.bool true) ↔
      complianceRequirements industry data_types geographic_regions ≠ []) ∧
    ((check_compliance_requirements industry data_types geographic_regions).get?
        "high_risk" = Option.some (Value.bool true) ↔
      2 < (complianceRequirements industry data_types geographic_regions).length) ∧
    ((check_compliance_requirements industry data_types geographic_regions).get?
        "high_risk" = Option.some (Value.bool true) →
      (check_compliance_requirements industry data_types geographic_regions).get?
        "requires_legal_review" = Option.some (Value.bool true)) := by
  have h1 : (check_compliance_requirements industry data_types geographic_regions).get?
      "requires_legal_review" = Option.some (Value.bool
        (decide (0 < (complianceRequirements industry data_types geographic_regions).length))) := rfl
  have h2 : (check_compliance_requirements industry data_types geographic_regions).get?
      "high_risk" = Option.some (Value.bool
        (decide (2 < (complianceRequirements industry data_types geographic_regions).length))) := rfl
  rw [h1, h2]
  refine ⟨?_, ?_, ?_⟩
  · simp [List.length_pos]
  · simp
  · intro h
    simp only [Option.some.injEq, Value.bool.injEq, decide_eq_true_eq] at h ⊢
    omega

/-- Witness for C10 at a concrete high-risk input (healthcare, PII data, EU),
which collects four requirements. -/
theorem C10_compliance_flags_witness :
    ((check_compliance_requirements "healthcare" ["pii data"] (Option.some ["EU"])).get?
        "requires_legal_review" = Option.some (Value.bool true) ↔
      complianceRequirements "healthcare" ["pii data"] (Option.some ["EU"]) ≠ []) ∧
    ((check_compliance_requirements "healthcare" ["pii data"] (Option.some ["EU"])).get?
        "high_risk" = Option.some (Value.bool true) ↔
      2 < (complianceRequirements "healthcare" ["pii data"] (Option.some ["EU"])).length) ∧
    ((check_compliance_requirements "healthcare" ["pii data"] (Option.some ["EU"])).get?
        "high_risk" = Option.some (Value.bool true) →
      (check_compliance_requirements "healthcare" ["pii data"] (Option.some ["EU"])).get?
        "requires_legal_review" = Option.some (Value.bool true)) :=
  C10_compliance_flags "healthcare" ["pii data"] (Option.some ["EU"])

set_option maxRecDepth 4000 in
/-- Counterexample for C7: with a present-but-empty context mapping the
seeded system turn is the fixed instruction text alone — `if context:` is
false for an empty dict, so nothing is appended, contradicting the claim that
a serialized rendering is appended whenever context is present. -/
theorem C7_counterexample :
    systemContent (Option.some []) = systemInstruction ∧
    systemContent (Option.some []) ≠
      systemInstruction ++ "\n\nContext: " ++ Value.dumps (Value.dict []) :=
  ⟨rfl, by decide⟩

/-- C7 amended: the seeded system turn's content is the fixed instruction
text when the context is absent or empty (Python-falsy), and the fixed
instruction text with the serialized context appended when the context is a
non-empty mapping. -/
theorem C7_system_turn_content (task_description : String) (context : Option ArgDict) :
    initialMessages task_description context =
      [Msg.system (systemContent context), Msg.user task_description] ∧
    ((context = Option.none ∨ context = Option.some []) →
      systemContent context = systemInstruction) ∧
    (∀ kv rest, context = Option.some (kv :: rest) →
      systemContent context =
        systemInstruction ++ "\n\nContext: " ++ Value.dumps (Value.dict (kv :: rest))) := by
  refine ⟨rfl, ?_, ?_⟩
  · rintro (rfl | rfl) <;> rfl
  · rintro kv rest rfl; rfl

/-- Witness for C7 amended: the absent-context and one-entry-context cases. -/
theorem C7_system_turn_content_witness :
    systemContent Option.none = systemInstruction ∧
    systemContent (Option.some [("project", Value.str "demo")]) =
      systemInstruction ++ "\n\nContext: " ++
        Value.dumps (Value.dict [("project", Value.str "demo")]) :=
  ⟨(C7_system_turn_content "t" Option.none).2.1 (Or.inl rfl),
   (C7_system_turn_content "t" (Option.some [("project", Value.str "demo")])).2.2
     ("project", Value.str "demo") [] rfl⟩

/-- C2: invoking any tool name absent from the registry yields a returned
(not raised) error-payload result, and the loop records it as an observation
and continues to the next reasoning round — with an oracle that requests the
unknown tool in round one and answers in round two, the task succeeds with
one step record whose observation is the error payload. -/
theorem C2_unknown_tool (name : String) (args : ArgDict) (h : name ∉ registeredNames) :
    execute_tool name args =
      .ok (Value.dict [("error", Value.str ("Tool " ++ name ++ " not found"))]) ∧
    ∀ td, execute_task (oracleUnknownTool name args) td Option.none 2 =
      .ok { final_answer := Option.some "done",
            steps := [{ step_number := 1, action := "Called tool: " ++ name,
                        tool_used := name, tool_input := args,
                        observation := Value.dict
                          [("error", Value.str ("Tool " ++ name ++ " not found"))],
                        reasoning := "Using " ++ name ++ " to gather information" }],
            total_steps := 1, success := true } := by
  simp only [registeredNames, List.mem_cons, List.not_mem_nil, or_false, not_or] at h
  obtain ⟨h1, h2, h3, h4⟩ := h
  have htool : execute_tool name args =
      .ok (Value.dict [("error", Value.str ("Tool " ++ name ++ " not found"))]) := by
    simp [execute_tool, h1, h2, h3, h4]
  refine ⟨htool, ?_⟩
  intro td
  simp [execute_task, initialMessages, runSteps, oracleUnknownTool, execRound, htool]

/-- Witness for C2 with the unregistered name `bogus_tool`. -/
theorem C2_unknown_tool_witness :
    execute_tool "bogus_tool" [] =
      .ok (Value.dict [("error", Value.str ("Tool " ++ "bogus_tool" ++ " not found"))]) ∧
    execute_task (oracleUnknownTool "bogus_tool" []) "task" Option.none 2 =
      .ok { final_answer := Option.some "done",
            steps := [{ step_number := 1, action := "Called tool: " ++ "bogus_tool",
                        tool_used := "bogus_tool", tool_input := [],
                        observation := Value.dict
                          [("error", Value.str ("Tool " ++ "bogus_tool" ++ " not found"))],
                        reasoning := "Using " ++ "bogus_tool" ++ " to gather information" }],
            total_steps := 1, success := true } :=
  ⟨(C2_unknown_tool "bogus_tool" [] (by decide)).1,
   (C2_unknown_tool "bogus_tool" [] (by decide)).2 "task"⟩

/-- C4: whenever a reasoning response contains no tool-call requests the loop
returns immediately in that round with `success=true`, the response's text
(possibly absent) as final answer, and the steps accumulated so far; from the
first round, `execute_task` returns with no steps. -/
theorem C4_no_tool_calls (oracle : Oracle) :
    (∀ fuel round messages steps, (oracle messages).tool_calls = [] →
      (runSteps oracle (fuel + 1) round messages steps).1 =
        .ok { final_answer := (oracle messages).content, steps := steps,
              total_steps := steps.length, success := true }) ∧
    (∀ td ctx N, 0 < N → (oracle (initialMessages td ctx)).tool_calls = [] →
      execute_task oracle td ctx N =
        .ok { final_answer := (oracle (initialMessages td ctx)).content,
              steps := [], total_steps := 0, success := true }) := by
  have hmain : ∀ fuel round messages steps, (oracle messages).tool_calls = [] →
      (runSteps oracle (fuel + 1) round messages steps).1 =
        .ok { final_answer := (oracle messages).content, steps := steps,
              total_steps := steps.length, success := true } := by
    intro fuel round messages steps h
    simp [runSteps, h]
  refine ⟨hmain, ?_⟩
  intro td ctx N hN h
  obtain ⟨M, rfl⟩ : ∃ M, N = M + 1 := ⟨N - 1, by omega⟩
  exact hmain M 0 _ [] h

/-- Witness for C4 with an oracle that answers immediately with absent text:
the result is `Done` with an empty final answer and no steps, not an error. -/
theorem C4_no_tool_calls_witness :
    (runSteps oracleDone 1 0 [] []).1 =
      .ok { final_answer := Option.none, steps := [], total_steps := 0, success := true } ∧
    execute_task oracleDone "t" Option.none 1 =
      .ok { final_answer := Option.none, steps := [], total_steps := 0, success := true } :=
  ⟨(C4_no_tool_calls oracleDone).1 0 0 [] [] rfl,
   (C4_no_tool_calls oracleDone).2 "t" Option.none 1 (by decide) rfl⟩

/-- Unfolding of one dispatching round: when the response requests tool
calls, the loop executes the round and continues (or propagates the round's
exception). -/
theorem runSteps_dispatch (oracle : Oracle) (fuel round : Nat) (messages : List Msg)
    (steps : List StepRecord) (hne : (oracle messages).tool_calls ≠ []) :
    runSteps oracle (fuel + 1) round messages steps =
      match execRound (round + 1) (oracle messages).tool_calls
          (messages ++ [Msg.assistant (oracle messages)]) steps with
      | .error e => (.error e, 1)
      | .ok (messages2, steps2) =>
        ((runSteps oracle fuel (round + 1) messages2 steps2).1,
         (runSteps oracle fuel (round + 1) messages2 steps2).2 + 1) := by
  have hb : (oracle messages).tool_calls.isEmpty = false := by
    cases hc : (oracle messages).tool_calls with
    | nil => exact absurd hc hne
    | cons a l => rfl
  conv_lhs => rw [runSteps]
  simp only [hb, Bool.false_eq_true, if_false]

/-- Counterexample for C1: a handler exception escapes `execute_task` — a
request for `calculate_risk_score` with `data_sensitivity` outside the
declared enumeration raises `KeyError` at `risk_map["bogus"]`, and
`execute_task` raises it instead of recording a failure observation. -/
theorem C1_counterexample :
    execute_task oracleBadEnum "t" Option.none 1 =
      Except.error (PyErr.keyError "bogus") := rfl

/-- C1 amended: only the unknown-tool failure is converted to a returned
error payload; an invocation whose arguments cannot be destructured or whose
handler raises propagates its exception out of the reasoning loop — whenever
a requested call raises (after any earlier calls of its round succeeded), the
exception escapes `execute_task`. -/
theorem C1_invocation_failures (oracle : Oracle) :
    (∀ fuel round messages steps pre tc post e,
      (oracle messages).tool_calls = pre ++ tc :: post →
      (∀ tc2 ∈ pre, (execute_tool tc2.function_name tc2.arguments).isOk = true) →
      execute_tool tc.function_name tc.arguments = Except.error e →
      (runSteps oracle (fuel + 1) round messages steps).1 = Except.error e) ∧
    (∀ td ctx N pre tc post e, 0 < N →
      (oracle (initialMessages td ctx)).tool_calls = pre ++ tc :: post →
      (∀ tc2 ∈ pre, (execute_tool tc2.function_name tc2.arguments).isOk = true) →
      execute_tool tc.function_name tc.arguments = Except.error e →
      execute_task oracle td ctx N = Except.error e) := by
  have hmain : ∀ fuel round messages steps pre tc post e,
      (oracle messages).tool_calls = pre ++ tc :: post →
      (∀ tc2 ∈ pre, (execute_tool tc2.function_name tc2.arguments).isOk = true) →
      execute_tool tc.function_name tc.arguments = Except.error e →
      (runSteps oracle (fuel + 1) round messages steps).1 = Except.error e := by
    intro fuel round messages steps pre tc post e hcalls hpre he
    have hne : (oracle messages).tool_calls ≠ [] := by rw [hcalls]; simp
    rw [runSteps_dispatch oracle fuel round messages steps hne, hcalls,
        execRound_error_escape pre tc post (round + 1) _ steps e hpre he]
  refine ⟨hmain, ?_⟩
  intro td ctx N pre tc post e hN hcalls hpre he
  obtain ⟨M, rfl⟩ : ∃ M, N = M + 1 := ⟨N - 1, by omega⟩
  exact hmain M 0 _ [] pre tc post e hcalls hpre he

/-- Witness for C1 amended: a call whose keyword destructuring fails escapes
`execute_task` as a raised `TypeError`. -/
theorem C1_invocation_failures_witness :
    execute_task oracleMissingArgs "u" Option.none 2 =
      Except.error (PyErr.typeError "missing a required argument") :=
  (C1_invocation_failures oracleMissingArgs).2 "u" Option.none 2 [] missingArgsCall []
    (PyErr.typeError "missing a required argument") (by decide) rfl
    (fun tc2 h => absurd h (List.not_mem_nil _)) rfl

/-- Counterexample for C3: with `max_steps = 1` and an oracle that always
requests a tool call (whose destructuring raises) and never emits final text,
`execute_task` raises instead of returning the exhaustion TaskResult. -/
theorem C3_counterexample :
    execute_task oracleMissingArgs "t" Option.none 1 =
      Except.error (PyErr.typeError "missing a required argument") := rfl

/-- C3 amended: `execute_task` makes at most `N` calls to the reasoning
capability; and if every round requests tool calls, none produces final text,
and every requested call executes without raising, the result is the returned
exhaustion TaskResult (success=false, the fixed sentinel text, and
`total_steps` equal to the number of accumulated StepRecords). -/
theorem C3_step_budget :
    (∀ (oracle : Oracle) td ctx N, reasoningCalls oracle td ctx N ≤ N) ∧
    (∀ (oracle : Oracle) td ctx N,
      (∀ messages, (oracle messages).tool_calls ≠ []) →
      (∀ messages, ∀ tc ∈ (oracle messages).tool_calls,
        (execute_tool tc.function_name tc.arguments).isOk = true) →
      isExhaustedOutcome (execute_task oracle td ctx N) = true) := by
  constructor
  · intro oracle td ctx N
    exact runSteps_count_le oracle N 0 _ []
  · intro oracle td ctx N h1 h2
    suffices h : ∀ fuel round messages steps,
        isExhaustedOutcome ((runSteps oracle fuel round messages steps).1) = true by
      exact h N 0 _ []
    intro fuel
    induction fuel with
    | zero => intro round messages steps; simp [runSteps, isExhaustedOutcome]
    | succ n ih =>
      intro round messages steps
      rw [runSteps_dispatch oracle n round messages steps (h1 messages),
          execRound_all_ok _ _ _ _ (h2 messages)]
      exact ih (round + 1) _ _

/-- Witness for C3 amended at an oracle that always requests one well-formed
metrics call: two rounds are used with budget 2 and the exhaustion result is
returned. -/
theorem C3_step_budget_witness :
    reasoningCalls oracleMetrics "t" Option.none 2 ≤ 2 ∧
    isExhaustedOutcome (execute_task oracleMetrics "t" Option.none 2) = true :=
  ⟨C3_step_budget.1 oracleMetrics "t" Option.none 2,
   C3_step_budget.2 oracleMetrics "t" Option.none 2
     (fun _ => List.cons_ne_nil _ _)
     (fun _ tc h => by
        rcases List.mem_cons.mp h with rfl | h2
        · rfl
        · exact absurd h2 (List.not_mem_nil _))⟩

/-- Counterexample for C5: in a round requesting two calls whose first raises,
the round aborts — no Tool turn or StepRecord is produced for the second
call, and the exception escapes before any further reasoning round. -/
theorem C5_counterexample :
    execRound 1 [badEnumCall, metricsCall] (initialMessages "t" Option.none) [] =
      Except.error (PyErr.keyError "bogus") ∧
    execute_task oracleTwoCalls "t" Option.none 3 =
      Except.error (PyErr.keyError "bogus") :=
  ⟨rfl, rfl⟩

/-- C5 amended: provided every requested call of a round executes without
raising, the round executes the calls sequentially in exactly emission order,
appending one Tool turn and one StepRecord per call in that order, and all of
them before the next reasoning call (the continuation runs on the transcript
already extended with every tool turn of the round). -/
theorem C5_round_dispatch (oracle : Oracle) :
    (∀ round calls messages steps,
      (∀ tc ∈ calls, (execute_tool tc.function_name tc.arguments).isOk = true) →
      execRound round calls messages steps =
        .ok (messages ++ calls.map toolTurnOf, steps ++ calls.map (stepRecordOf round))) ∧
    (∀ fuel round messages steps,
      (oracle messages).tool_calls ≠ [] →
      (∀ tc ∈ (oracle messages).tool_calls,
        (execute_tool tc.function_name tc.arguments).isOk = true) →
      runSteps oracle (fuel + 1) round messages steps =
        ((runSteps oracle fuel (round + 1)
            ((messages ++ [Msg.assistant (oracle messages)]) ++
              (oracle messages).tool_calls.map toolTurnOf)
            (steps ++ (oracle messages).tool_calls.map (stepRecordOf (round + 1)))).1,
         (runSteps oracle fuel (round + 1)
            ((messages ++ [Msg.assistant (oracle messages)]) ++
              (oracle messages).tool_calls.map toolTurnOf)
            (steps ++ (oracle messages).tool_calls.map (stepRecordOf (round + 1)))).2 + 1)) := by
  refine ⟨fun round calls messages steps h => execRound_all_ok calls round messages steps h, ?_⟩
  intro fuel round messages steps hne h
  rw [runSteps_dispatch oracle fuel round messages steps hne,
      execRound_all_ok _ _ _ _ h]

/-- Witness for C5 amended at a round requesting two well-formed calls. -/
theorem C5_round_dispatch_witness :
    runSteps oracleTwoGood 1 0 (initialMessages "t" Option.none) [] =
      ((runSteps oracleTwoGood 0 1
          ((initialMessages "t" Option.none ++
              [Msg.assistant (oracleTwoGood (initialMessages "t" Option.none))]) ++
            (oracleTwoGood (initialMessages "t" Option.none)).tool_calls.map toolTurnOf)
          ([] ++ (oracleTwoGood (initialMessages "t" Option.none)).tool_calls.map
              (stepRecordOf 1))).1,
       (runSteps oracleTwoGood 0 1
          ((initialMessages "t" Option.none ++
              [Msg.assistant (oracleTwoGood (initialMessages "t" Option.none))]) ++
            (oracleTwoGood (initialMessages "t" Option.none)).tool_calls.map toolTurnOf)
          ([] ++ (oracleTwoGood (initialMessages "t" Option.none)).tool_calls.map
              (stepRecordOf 1))).2 + 1) :=
  (C5_round_dispatch oracleTwoGood).2 0 0 (initialMessages "t" Option.none) []
    (List.cons_ne_nil _ _)
    (fun tc h => by
       rcases List.mem_cons.mp h with rfl | h2
       · rfl
       rcases List.mem_cons.mp h2 with rfl | h3
       · rfl
       · exact absurd h3 (List.not_mem_nil _))
